import Mathlib

/-
Shallow embedding of the Phaser WebGL DrawingContext
(src/renderer/webgl/DrawingContext.js) and of the global-parameters
factory (src/renderer/webgl/parameters/WebGLGlobalParametersFactory.js).

Modelling conventions:
* JavaScript numbers are rationals; values produced by Math.round are
  integers.
* GPU resources (textures and framebuffer wrappers) are modelled by an
  allocator `GpuState`: creation hands out a fresh id and adds it to the
  `live` list, deletion removes the id; deleting a null handle is a
  no-op, exactly as the renderer collaborator behaves.
* Mutable JS arrays whose object identity is observable in the claims
  (`state.colorClearValue`) carry an allocation id drawn from a
  per-context counter `nextArrId`; allocating a new array literal takes
  the current counter value and bumps it.
* A thrown JS exception is modelled by `Except` when the state at the
  throw is relevant (the error payload is the receiver exactly as it
  stands when the throw happens) and by `Option` when it is not.
* `options.autoResize` only subscribes `resize` to a renderer event; no
  claim concerns the subscription itself, so it is omitted.
-/

/-- WebGL buffer-bit constant `gl.COLOR_BUFFER_BIT` (value fixed by the
WebGL specification; the source reads it from `renderer.gl`). -/
def COLOR_BUFFER_BIT : Nat := 16384

/-- WebGL buffer-bit constant `gl.DEPTH_BUFFER_BIT`. -/
def DEPTH_BUFFER_BIT : Nat := 256

/-- WebGL buffer-bit constant `gl.STENCIL_BUFFER_BIT`. -/
def STENCIL_BUFFER_BIT : Nat := 1024

/-- One entry of the renderer's `blendModes` table: an enable flag, a
blend equation and a blend function, plus an allocation id recording the
identity of the underlying JS object (used to state deep-copy facts). -/
structure BlendModeData where
  id : Nat
  enable : Bool
  equation : Nat
  func : List Nat
deriving DecidableEq

/-- The slice of the owning WebGLRenderer that the DrawingContext reads:
the blend-mode table and the current surface dimensions. -/
structure Renderer where
  blendModes : List BlendModeData
  width : ℚ
  height : ℚ
deriving DecidableEq

/-- JS array indexing `renderer.blendModes[i]`: `undefined` (`none`) for
negative or out-of-range indices. -/
def blendLookup (r : Renderer) (i : ℤ) : Option BlendModeData :=
  if i < 0 then none else r.blendModes.get? i.toNat

/-- The GPU resource allocator: `nextRes` is the next fresh resource id,
`live` the ids of created-and-not-yet-deleted resources. -/
structure GpuState where
  nextRes : Nat
  live : List Nat
deriving DecidableEq

/-- Model of `renderer.createTextureFromSource` and
`renderer.createFramebuffer`:
returns a fresh resource id and records it as live. -/
def createRes (g : GpuState) : Nat × GpuState :=
  (g.nextRes, { nextRes := g.nextRes + 1, live := g.nextRes :: g.live })

/-- Model of `renderer.deleteTexture` and `renderer.deleteFramebuffer`:
deleting a
null handle is a no-op; otherwise the resource stops being live. -/
def deleteRes (g : GpuState) : Option Nat → GpuState
  | none => g
  | some i => { g with live := g.live.filter (fun j => j ≠ i) }

/-- The `state.colorClearValue` array: a 4-component RGBA value together
with the
allocation id of the underlying JS array object. -/
structure ColorArray where
  id : Nat
  val : ℚ × ℚ × ℚ × ℚ
deriving DecidableEq

/-- The `state.blend` record of a DrawingContext.  It starts life as the empty JS
object `{}` (every field `undefined`, hence `Option`) and is populated
by `setBlendMode`. -/
structure BlendState where
  enable : Option Bool
  equation : Option Nat
  func : Option (List Nat)
  color : Option (ℚ × ℚ × ℚ × ℚ)
deriving DecidableEq

/-- The `state.scissor` record: the scissor box and its enable flag. -/
structure ScissorState where
  box : ℚ × ℚ × ℚ × ℚ
  enable : Bool
deriving DecidableEq

/-- The per-context state descriptor built in the constructor: bound
framebuffer, blend state, clear color, scissor and viewport. -/
structure ContextState where
  bindFramebuffer : Option Nat
  blend : BlendState
  colorClearValue : ColorArray
  scissor : ScissorState
  viewport : ℚ × ℚ × ℚ × ℚ
deriving DecidableEq

/-- The DrawingContext entity.  `framebuffer` and `texture` are GPU
resource handles (`none` is JS `null`).  `nextArrId` is the context's
array-allocation counter (see the module comment). -/
structure DrawingContext where
  camera : Option Nat
  state : ContextState
  blendMode : ℤ
  autoClear : Nat
  useCanvas : Bool
  framebuffer : Option Nat
  texture : Option Nat
  inUse : Bool
  width : ℤ
  height : ℤ
  nextArrId : Nat
deriving DecidableEq

/-- JS `Math.round`: the floor of the argument plus one half (halves
round toward positive infinity), written on the numerator and
denominator so that it evaluates by kernel reduction; the lemma
`jsRound_eq_floor` below certifies that this is exactly `⌊x + 1/2⌋`. -/
def jsRound (x : ℚ) : ℤ := (2 * x.num + x.den) / (2 * (x.den : ℤ))

/-- The GPU-resource step of `resize`: for a non-canvas context, delete
the current texture and the framebuffer recorded in
`state.bindings.framebuffer`, then create a fresh texture and a fresh
framebuffer; for a canvas context with no framebuffer yet, create the
one canvas-wrapping framebuffer; otherwise do nothing. -/
def DrawingContext.resizeCore (ctx : DrawingContext) (g : GpuState) :
    DrawingContext × GpuState :=
  if !ctx.useCanvas then
    let g1 := deleteRes g ctx.texture
    let g2 := deleteRes g1 ctx.state.bindFramebuffer
    let tc := createRes g2
    let fc := createRes tc.2
    ({ ctx with texture := some tc.1, framebuffer := some fc.1 }, fc.2)
  else if ctx.framebuffer = none then
    let fc := createRes g
    ({ ctx with framebuffer := some fc.1 }, fc.2)
  else
    (ctx, g)

/-- Method `DrawingContext#resize`: round the requested dimensions, clamp
non-positive results to 1, run the GPU-resource step, then update the
framebuffer binding, the stored dimensions, and reset the scissor box
and the viewport to `[0, 0, width, height]`. -/
def DrawingContext.resize (ctx : DrawingContext) (g : GpuState)
    (width height : ℚ) : DrawingContext × GpuState :=
  let w0 := jsRound width
  let w := if w0 ≤ 0 then 1 else w0
  let h0 := jsRound height
  let h := if h0 ≤ 0 then 1 else h0
  let p := ctx.resizeCore g
  ({ p.1 with
      state := { p.1.state with
        bindFramebuffer := p.1.framebuffer,
        scissor := { p.1.state.scissor with
          box := ((0 : ℚ), (0 : ℚ), (w : ℚ), (h : ℚ)) },
        viewport := ((0 : ℚ), (0 : ℚ), (w : ℚ), (h : ℚ)) },
      width := w,
      height := h }, p.2)

/-- Method `DrawingContext#setBlendMode`: early return when the index equals
the current `blendMode`; otherwise look the entry up in the renderer's
table — a missing entry makes the JS code throw before any field is
written (modelled by `Except.error` carrying the untouched receiver) —
and copy its enable, equation and func into `state.blend`, set or clear
the optional constant blend color, and store the new index. -/
def DrawingContext.setBlendMode (ctx : DrawingContext) (r : Renderer)
    (blendMode : ℤ) (blendColor : Option (ℚ × ℚ × ℚ × ℚ)) :
    Except DrawingContext DrawingContext :=
  if blendMode = ctx.blendMode then
    .ok ctx
  else
    match blendLookup r blendMode with
    | none => .error ctx
    | some d =>
        .ok { ctx with
          state := { ctx.state with
            blend := { enable := some d.enable, equation := some d.equation,
                       func := some d.func, color := blendColor } },
          blendMode := blendMode }

/-- Method `DrawingContext#setAutoClear`: recompute the clear mask from the
three buffer flags. -/
def DrawingContext.setAutoClear (ctx : DrawingContext)
    (color depth stencil : Bool) : DrawingContext :=
  let a0 : Nat := 0
  let a1 := if color then a0 ||| COLOR_BUFFER_BIT else a0
  let a2 := if depth then a1 ||| DEPTH_BUFFER_BIT else a1
  let a3 := if stencil then a2 ||| STENCIL_BUFFER_BIT else a2
  { ctx with autoClear := a3 }

/-- Method `DrawingContext#setClearColor`: early return when all four
components equal the stored ones; otherwise store a freshly allocated
4-element array holding exactly the inputs. -/
def DrawingContext.setClearColor (ctx : DrawingContext)
    (r g b a : ℚ) : DrawingContext :=
  let cv := ctx.state.colorClearValue
  if r = cv.val.1 ∧ g = cv.val.2.1 ∧ b = cv.val.2.2.1 ∧ a = cv.val.2.2.2 then
    ctx
  else
    { ctx with
      state := { ctx.state with
        colorClearValue := { id := ctx.nextArrId, val := (r, g, b, a) } },
      nextArrId := ctx.nextArrId + 1 }

/-- Method `DrawingContext#setScissorBox`: direct replacement of the box. -/
def DrawingContext.setScissorBox (ctx : DrawingContext)
    (x y width height : ℚ) : DrawingContext :=
  { ctx with state := { ctx.state with
      scissor := { ctx.state.scissor with box := (x, y, width, height) } } }

/-- Method `DrawingContext#setScissorEnable`: direct replacement of the
flag. -/
def DrawingContext.setScissorEnable (ctx : DrawingContext)
    (enable : Bool) : DrawingContext :=
  { ctx with state := { ctx.state with
      scissor := { ctx.state.scissor with enable := enable } } }

/-- Method `DrawingContext#setCamera`: plain reference assignment. -/
def DrawingContext.setCamera (ctx : DrawingContext)
    (camera : Option Nat) : DrawingContext :=
  { ctx with camera := camera }

/-- Method `DrawingContext#copy`: copy `autoClear`, `useCanvas`, `camera` and
`blendMode`, alias `framebuffer`, `texture` and the framebuffer binding
from the source, rebuild `state` with value copies of the arrays
(`colorClearValue`, `scissor.box`, `viewport`, `blend.color`), then
finish by resizing to the source's dimensions. -/
def DrawingContext.copy (ctx : DrawingContext) (g : GpuState)
    (source : DrawingContext) : DrawingContext × GpuState :=
  let state := source.state
  let blend := state.blend
  let scissor := state.scissor
  let ctx1 : DrawingContext :=
    { ctx with
      autoClear := source.autoClear,
      useCanvas := source.useCanvas,
      framebuffer := source.framebuffer,
      texture := source.texture,
      camera := source.camera,
      blendMode := source.blendMode,
      state := {
        bindFramebuffer := state.bindFramebuffer,
        blend := { color := blend.color, enable := blend.enable,
                   equation := blend.equation, func := blend.func },
        colorClearValue := { id := ctx.nextArrId,
                             val := state.colorClearValue.val },
        scissor := { box := scissor.box, enable := scissor.enable },
        viewport := state.viewport },
      nextArrId := ctx.nextArrId + 1 }
  ctx1.resize g (source.width : ℚ) (source.height : ℚ)

/-- The `options.autoClear` value: JS allows a boolean or a 3-element
array of booleans (`none` models `undefined`). -/
inductive AutoClearOption where
  | bool (b : Bool)
  | arr (color depth stencil : Bool)
deriving DecidableEq

/-- The recognized constructor options (`autoResize` omitted, see the
module comment). -/
structure ContextOptions where
  autoClear : Option AutoClearOption
  blendMode : Option ℤ
  camera : Option Nat
  clearColor : Option (ℚ × ℚ × ℚ × ℚ)
  useCanvas : Bool
  copyFrom : Option DrawingContext
deriving DecidableEq

/-- The field values the constructor has set when `setBlendMode` runs:
camera from the options, the initial state (blend is the empty object,
scissor enabled with a zero box, clear color from the options or
transparent black), the `-1` blend-mode sentinel, and null resource
handles. -/
def mkCtx0 (opts : ContextOptions) : DrawingContext :=
  { camera := opts.camera,
    state := {
      bindFramebuffer := none,
      blend := { enable := none, equation := none, func := none,
                 color := none },
      colorClearValue := { id := 0,
                           val := opts.clearColor.getD (0, 0, 0, 0) },
      scissor := { box := (0, 0, 0, 0), enable := true },
      viewport := (0, 0, 0, 0) },
    blendMode := -1,
    autoClear := 0,
    useCanvas := false,
    framebuffer := none,
    texture := none,
    inUse := false,
    width := 0,
    height := 0,
    nextArrId := 1 }

/-- The constructor's auto-clear dispatch: `undefined` or `true` clears
all three buffers, an array is spread into `setAutoClear`, any other
value (in particular `false`) leaves the zero mask. -/
def autoClearStep (ctx : DrawingContext) :
    Option AutoClearOption → DrawingContext
  | none => ctx.setAutoClear true true true
  | some (.bool true) => ctx.setAutoClear true true true
  | some (.bool false) => ctx
  | some (.arr c d s) => ctx.setAutoClear c d s

/-- The DrawingContext constructor: build the initial fields, run
`setBlendMode(options.blendMode || 0)` (a missing table entry throws,
modelled by `none`), compute the auto-clear mask, fix `useCanvas`, and
finish with `copy(options.copyFrom)` or
`resize(renderer.width, renderer.height)`. -/
def mkDrawingContext (r : Renderer) (g : GpuState) (opts : ContextOptions) :
    Option (DrawingContext × GpuState) :=
  match (mkCtx0 opts).setBlendMode r (opts.blendMode.getD 0) none with
  | .error _ => none
  | .ok ctx1 =>
    match opts.copyFrom with
    | some src =>
        some (({ autoClearStep ctx1 opts.autoClear with
                 useCanvas := opts.useCanvas }).copy g src)
    | none =>
        some (({ autoClearStep ctx1 opts.autoClear with
                 useCanvas := opts.useCanvas }).resize g r.width r.height)

/-- Method `DrawingContext#getClone`: construct a fresh context with
`copyFrom` pointing at the receiver, then zero its auto-clear mask
unless `preserveAutoClear` is set. -/
def DrawingContext.getClone (ctx : DrawingContext) (r : Renderer)
    (g : GpuState) (preserveAutoClear : Bool) :
    Option (DrawingContext × GpuState) :=
  match mkDrawingContext r g
      { autoClear := none, blendMode := none, camera := none,
        clearColor := none, useCanvas := false, copyFrom := some ctx } with
  | none => none
  | some p =>
      if preserveAutoClear then some p
      else some (p.1.setAutoClear false false false, p.2)

/-- The `texturing` sub-record of the full default descriptor. -/
structure TexturingState where
  flipY : Bool
  premultiplyAlpha : Bool
deriving DecidableEq

/-- The `bindings` sub-record of the full default descriptor. -/
structure FullBindings where
  activeTexture : Nat
  arrayBuffer : Option Nat
  elementArrayBuffer : Option Nat
  framebuffer : Option Nat
  program : Option Nat
deriving DecidableEq

/-- The full default global-parameters descriptor produced by the
factory.  `blend` is `Option` because JS indexing of a missing NORMAL
entry would yield `undefined`; `stencil` is opaque (see below). -/
structure GlobalParameters where
  bindings : FullBindings
  blend : Option BlendModeData
  colorClearValue : ℚ × ℚ × ℚ × ℚ
  colorWritemask : Bool × Bool × Bool × Bool
  cullFace : Bool
  depthTest : Bool
  scissor : ScissorState
  stencil : Unit
  texturing : TexturingState
  viewport : ℚ × ℚ × ℚ × ℚ
deriving DecidableEq

/-- Modelled from the spec: the `DeepCopy` utility
(`src/utils/object/DeepCopy.js`, not included under `src/`) produces an
independent copy of the table entry, "so the returned descriptor cannot
be mutated through the table or vice versa" — here a value copy carrying
a fresh allocation id supplied by the caller. -/
def DeepCopy (freshId : Nat) (e : BlendModeData) : BlendModeData :=
  { id := freshId, enable := e.enable, equation := e.equation,
    func := e.func }

/-- Modelled from the spec: `WebGLStencilParametersFactory.create`
(not included under `src/`) builds the stencil sub-descriptor, treated
by this core as an opaque black box. -/
def WebGLStencilParametersFactory.create (_r : Renderer) : Unit := ()

/-- Factory method `WebGLGlobalParametersFactory.getDefault`.  Here
`normalIdx` stands for
`CONST.BlendModes.NORMAL` (defined outside `src/`; modelled from the
spec as a parameter: the index of the table entry whose meaning is
"source-over"); `freshId` is the identity of the object `DeepCopy`
allocates. -/
def WebGLGlobalParametersFactory.getDefault (r : Renderer)
    (normalIdx freshId : Nat) : GlobalParameters :=
  { bindings := { activeTexture := 0, arrayBuffer := none,
                  elementArrayBuffer := none, framebuffer := none,
                  program := none },
    blend := (r.blendModes.get? normalIdx).map (DeepCopy freshId),
    colorClearValue := (0, 0, 0, 1),
    colorWritemask := (true, true, true, true),
    cullFace := false,
    depthTest := false,
    scissor := { enable := false, box := (0, 0, 0, 0) },
    stencil := WebGLStencilParametersFactory.create r,
    texturing := { flipY := false, premultiplyAlpha := false },
    viewport := (0, 0, 0, 0) }

/-- Mutual consistency of the `blendMode` index and `state.blend`: the
table has an entry at the index and the blend fields hold exactly its
enable, equation and func. -/
def BlendConsistent (r : Renderer) (ctx : DrawingContext) : Prop :=
  match blendLookup r ctx.blendMode with
  | none => False
  | some d =>
      ctx.state.blend.enable = some d.enable ∧
      ctx.state.blend.equation = some d.equation ∧
      ctx.state.blend.func = some d.func

instance (r : Renderer) (ctx : DrawingContext) :
    Decidable (BlendConsistent r ctx) := by
  unfold BlendConsistent
  cases blendLookup r ctx.blendMode <;> exact inferInstance

/-- Iterated `resize` with a list of requested dimensions. -/
def resizeFold (ctx : DrawingContext) (g : GpuState) :
    List (ℚ × ℚ) → DrawingContext × GpuState
  | [] => (ctx, g)
  | (w, h) :: rest =>
      let p := ctx.resize g w h
      resizeFold p.1 p.2 rest

/-- A sample "normal" blend-mode table entry. -/
def bmNormal : BlendModeData :=
  { id := 100, enable := true, equation := 1, func := [1, 2] }

/-- A sample additive blend-mode table entry. -/
def bmAdd : BlendModeData :=
  { id := 101, enable := true, equation := 1, func := [3, 4] }

/-- A sample renderer: a two-entry blend table and an 800 by 600
surface. -/
def sampleRenderer : Renderer :=
  { blendModes := [bmNormal, bmAdd], width := 800, height := 600 }

/-- The initial GPU allocator: no resources yet. -/
def g0 : GpuState := { nextRes := 0, live := [] }

/-- The empty options object (every recognized option left at its
default). -/
def optsDefault : ContextOptions :=
  { autoClear := none, blendMode := none, camera := none,
    clearColor := none, useCanvas := false, copyFrom := none }

/-- Options selecting the canvas as the backing surface. -/
def optsCanvas : ContextOptions := { optsDefault with useCanvas := true }

/-- Options passing blend mode `-1`, the value of the constructor's
internal sentinel. -/
def optsNeg1 : ContextOptions := { optsDefault with blendMode := some (-1) }

/-- The context produced by constructing with the empty options against
`sampleRenderer` starting from `g0` (texture id 0, framebuffer id 1). -/
def ctxA : DrawingContext :=
  { camera := none,
    state := {
      bindFramebuffer := some 1,
      blend := { enable := some true, equation := some 1,
                 func := some [1, 2], color := none },
      colorClearValue := { id := 0, val := (0, 0, 0, 0) },
      scissor := { box := (0, 0, 800, 600), enable := true },
      viewport := (0, 0, 800, 600) },
    blendMode := 0,
    autoClear := 17664,
    useCanvas := false,
    framebuffer := some 1,
    texture := some 0,
    inUse := false,
    width := 800,
    height := 600,
    nextArrId := 1 }

/-- The allocator after `ctxA`'s construction: texture 0 and
framebuffer 1 live, next id 2. -/
def gA : GpuState := { nextRes := 2, live := [1, 0] }

/-- Options constructing a copy of `ctxA`. -/
def optsCopyA : ContextOptions := { optsDefault with copyFrom := some ctxA }

/-- The context-and-allocator pair produced by constructing a copy of
`ctxA` (the fallback is never taken). -/
def pB : DrawingContext × GpuState :=
  (mkDrawingContext sampleRenderer gA optsCopyA).getD (ctxA, gA)

/-- The context-and-allocator pair produced by constructing a
canvas-backed context (the fallback is never taken). -/
def canvasPair : DrawingContext × GpuState :=
  (mkDrawingContext sampleRenderer g0 optsCanvas).getD (ctxA, g0)

/-- Value of `ctxA` after switching to blend mode 1. -/
def ctxA1 : DrawingContext :=
  { ctxA with
    state := { ctxA.state with
      blend := { enable := some bmAdd.enable,
                 equation := some bmAdd.equation,
                 func := some bmAdd.func, color := none } },
    blendMode := 1 }

/-- Certification that `jsRound` is `Math.round`: the floor of the
argument plus one
half. -/
theorem jsRound_eq_floor (x : ℚ) : jsRound x = ⌊x + 1/2⌋ := by
  have hd : ((x.den : ℚ)) ≠ 0 := by
    exact_mod_cast x.den_nz
  have hx : x * (x.den : ℚ) = (x.num : ℚ) := by
    rw [mul_comm]
    exact_mod_cast Rat.den_mul_eq_num x
  have h2d : (((2 * x.den : ℕ) : ℚ)) ≠ 0 := by
    push_cast
    simp [hd]
  have h1 : x + 1/2 = ((2 * x.num + (x.den : ℤ) : ℤ) : ℚ) /
      (((2 * x.den : ℕ)) : ℚ) := by
    rw [eq_div_iff h2d]
    push_cast
    linear_combination 2 * hx
  rw [jsRound, h1, Rat.floor_intCast_div_natCast]
  push_cast
  ring_nf

/-- The GPU-resource step never touches the state descriptor or any
non-resource field of the context. -/
theorem resizeCore_preserves (ctx : DrawingContext) (g : GpuState) :
    (ctx.resizeCore g).1.state = ctx.state ∧
    (ctx.resizeCore g).1.blendMode = ctx.blendMode ∧
    (ctx.resizeCore g).1.useCanvas = ctx.useCanvas ∧
    (ctx.resizeCore g).1.autoClear = ctx.autoClear ∧
    (ctx.resizeCore g).1.camera = ctx.camera ∧
    (ctx.resizeCore g).1.nextArrId = ctx.nextArrId ∧
    (ctx.resizeCore g).1.inUse = ctx.inUse := by
  unfold DrawingContext.resizeCore
  split
  · exact ⟨rfl, rfl, rfl, rfl, rfl, rfl, rfl⟩
  · split
    · exact ⟨rfl, rfl, rfl, rfl, rfl, rfl, rfl⟩
    · exact ⟨rfl, rfl, rfl, rfl, rfl, rfl, rfl⟩

/-- Lemma: `resize` never touches the blend data, the auto-clear mask, the
scissor enable flag, the clear color or the allocation counter. -/
theorem resize_preserves (ctx : DrawingContext) (g : GpuState) (w h : ℚ) :
    (ctx.resize g w h).1.blendMode = ctx.blendMode ∧
    (ctx.resize g w h).1.state.blend = ctx.state.blend ∧
    (ctx.resize g w h).1.autoClear = ctx.autoClear ∧
    (ctx.resize g w h).1.useCanvas = ctx.useCanvas ∧
    (ctx.resize g w h).1.state.scissor.enable = ctx.state.scissor.enable ∧
    (ctx.resize g w h).1.state.colorClearValue = ctx.state.colorClearValue ∧
    (ctx.resize g w h).1.nextArrId = ctx.nextArrId ∧
    (ctx.resize g w h).1.camera = ctx.camera := by
  obtain ⟨h1, h2, h3, h4, h5, h6, h7⟩ := resizeCore_preserves ctx g
  unfold DrawingContext.resize
  exact ⟨h2, congrArg (fun s => s.blend) h1, h4, h3,
    congrArg (fun s => s.scissor.enable) h1,
    congrArg (fun s => s.colorClearValue) h1, h6, h5⟩

/-- The dimension step of `resize` leaves the resource handles and the
allocator exactly as the GPU-resource step left them. -/
theorem resize_resources (ctx : DrawingContext) (g : GpuState) (w h : ℚ) :
    (ctx.resize g w h).1.framebuffer = (ctx.resizeCore g).1.framebuffer ∧
    (ctx.resize g w h).1.texture = (ctx.resizeCore g).1.texture ∧
    (ctx.resize g w h).2 = (ctx.resizeCore g).2 := by
  unfold DrawingContext.resize
  exact ⟨rfl, rfl, rfl⟩

/-- A canvas context that already has its framebuffer performs no GPU
work at all in the resource step. -/
theorem resizeCore_canvas_existing (ctx : DrawingContext) (g : GpuState)
    (hc : ctx.useCanvas = true) (hf : ctx.framebuffer ≠ none) :
    ctx.resizeCore g = (ctx, g) := by
  unfold DrawingContext.resizeCore
  rw [hc]
  simp [hf]

/-- A canvas context without a framebuffer creates exactly one. -/
theorem resizeCore_canvas_fresh (ctx : DrawingContext) (g : GpuState)
    (hc : ctx.useCanvas = true) (hf : ctx.framebuffer = none) :
    ctx.resizeCore g = ({ ctx with framebuffer := some g.nextRes },
      { nextRes := g.nextRes + 1, live := g.nextRes :: g.live }) := by
  unfold DrawingContext.resizeCore
  rw [hc, hf]
  simp [createRes]

/-- Case analysis of a successful `setBlendMode`: either the fast path
returned the receiver unchanged, or the table entry was found and was
copied into the blend state. -/
theorem setBlendMode_ok_cases (ctx : DrawingContext) (r : Renderer)
    (b : ℤ) (c : Option (ℚ × ℚ × ℚ × ℚ)) (ctx' : DrawingContext)
    (h : ctx.setBlendMode r b c = .ok ctx') :
    (b = ctx.blendMode ∧ ctx' = ctx) ∨
    (b ≠ ctx.blendMode ∧ ∃ d, blendLookup r b = some d ∧
      ctx' = { ctx with
        state := { ctx.state with
          blend := { enable := some d.enable, equation := some d.equation,
                     func := some d.func, color := c } },
        blendMode := b }) := by
  unfold DrawingContext.setBlendMode at h
  by_cases hb : b = ctx.blendMode
  · rw [if_pos hb] at h
    injection h with h
    exact Or.inl ⟨hb, h.symm⟩
  · rw [if_neg hb] at h
    cases hl : blendLookup r b with
    | none => rw [hl] at h; exact absurd h (by simp)
    | some d =>
        rw [hl] at h
        injection h with h
        exact Or.inr ⟨hb, d, rfl, h.symm⟩

/-- A failing `setBlendMode` throws with the receiver untouched. -/
theorem setBlendMode_error_eq (ctx : DrawingContext) (r : Renderer)
    (b : ℤ) (c : Option (ℚ × ℚ × ℚ × ℚ)) (ctx' : DrawingContext)
    (h : ctx.setBlendMode r b c = .error ctx') : ctx' = ctx := by
  unfold DrawingContext.setBlendMode at h
  by_cases hb : b = ctx.blendMode
  · rw [if_pos hb] at h
    exact absurd h (by simp)
  · rw [if_neg hb] at h
    cases hl : blendLookup r b with
    | none => rw [hl] at h; injection h with h; exact h.symm
    | some d => rw [hl] at h; exact absurd h (by simp)

/-- Whatever its outcome, `setBlendMode` touches only the blend data
and the blend-mode index. -/
theorem setBlendMode_outcome_preserves (ctx : DrawingContext) (r : Renderer)
    (b : ℤ) (c : Option (ℚ × ℚ × ℚ × ℚ)) (ctx' : DrawingContext)
    (h : ctx.setBlendMode r b c = .ok ctx' ∨
         ctx.setBlendMode r b c = .error ctx') :
    ctx'.framebuffer = ctx.framebuffer ∧ ctx'.texture = ctx.texture ∧
    ctx'.useCanvas = ctx.useCanvas ∧ ctx'.autoClear = ctx.autoClear ∧
    ctx'.camera = ctx.camera ∧ ctx'.nextArrId = ctx.nextArrId ∧
    ctx'.state.scissor = ctx.state.scissor ∧
    ctx'.state.colorClearValue = ctx.state.colorClearValue := by
  rcases h with h | h
  · rcases setBlendMode_ok_cases ctx r b c ctx' h with ⟨_, h2⟩ | ⟨_, d, _, h2⟩ <;>
      subst h2 <;> exact ⟨rfl, rfl, rfl, rfl, rfl, rfl, rfl, rfl⟩
  · have h2 := setBlendMode_error_eq ctx r b c ctx' h
    subst h2
    exact ⟨rfl, rfl, rfl, rfl, rfl, rfl, rfl, rfl⟩

/-- Lemma: `setAutoClear` touches only the auto-clear mask. -/
theorem setAutoClear_preserves (ctx : DrawingContext) (c d s : Bool) :
    (ctx.setAutoClear c d s).state = ctx.state ∧
    (ctx.setAutoClear c d s).blendMode = ctx.blendMode ∧
    (ctx.setAutoClear c d s).useCanvas = ctx.useCanvas ∧
    (ctx.setAutoClear c d s).framebuffer = ctx.framebuffer ∧
    (ctx.setAutoClear c d s).texture = ctx.texture ∧
    (ctx.setAutoClear c d s).camera = ctx.camera ∧
    (ctx.setAutoClear c d s).nextArrId = ctx.nextArrId :=
  ⟨rfl, rfl, rfl, rfl, rfl, rfl, rfl⟩

/-- The constructor's auto-clear dispatch touches only the auto-clear
mask. -/
theorem autoClearStep_preserves (ctx : DrawingContext)
    (o : Option AutoClearOption) :
    (autoClearStep ctx o).state = ctx.state ∧
    (autoClearStep ctx o).blendMode = ctx.blendMode ∧
    (autoClearStep ctx o).useCanvas = ctx.useCanvas ∧
    (autoClearStep ctx o).framebuffer = ctx.framebuffer ∧
    (autoClearStep ctx o).texture = ctx.texture ∧
    (autoClearStep ctx o).camera = ctx.camera ∧
    (autoClearStep ctx o).nextArrId = ctx.nextArrId := by
  cases o with
  | none => exact setAutoClear_preserves ctx true true true
  | some a =>
      cases a with
      | bool b =>
          cases b with
          | true => exact setAutoClear_preserves ctx true true true
          | false => exact ⟨rfl, rfl, rfl, rfl, rfl, rfl, rfl⟩
      | arr c d s => exact setAutoClear_preserves ctx c d s

/-- Characterization of a successful construction: `setBlendMode`
succeeded on the initial fields, and the result is the copy branch or
the resize branch applied after the auto-clear and `useCanvas` steps. -/
theorem mkDrawingContext_some (r : Renderer) (g : GpuState)
    (opts : ContextOptions) (p : DrawingContext × GpuState)
    (h : mkDrawingContext r g opts = some p) :
    ∃ ctx1,
      (mkCtx0 opts).setBlendMode r (opts.blendMode.getD 0) none = .ok ctx1 ∧
      ((opts.copyFrom = none ∧
        p = ({ autoClearStep ctx1 opts.autoClear with
               useCanvas := opts.useCanvas }).resize g r.width r.height) ∨
       (∃ src, opts.copyFrom = some src ∧
        p = ({ autoClearStep ctx1 opts.autoClear with
               useCanvas := opts.useCanvas }).copy g src)) := by
  unfold mkDrawingContext at h
  cases hsb : (mkCtx0 opts).setBlendMode r (opts.blendMode.getD 0) none with
  | error e => rw [hsb] at h; exact absurd h (by simp)
  | ok ctx1 =>
      rw [hsb] at h
      refine ⟨ctx1, rfl, ?_⟩
      cases hcf : opts.copyFrom with
      | none =>
          rw [hcf] at h
          injection h with h
          exact Or.inl ⟨rfl, h.symm⟩
      | some src =>
          rw [hcf] at h
          injection h with h
          exact Or.inr ⟨src, rfl, h.symm⟩

/-- Lemma: `copy` carries the source's scalar fields and blend data; the
blend
record itself is value-copied whole. -/
theorem copy_fields (ctx src : DrawingContext) (g : GpuState) :
    (ctx.copy g src).1.autoClear = src.autoClear ∧
    (ctx.copy g src).1.blendMode = src.blendMode ∧
    (ctx.copy g src).1.state.blend = src.state.blend ∧
    (ctx.copy g src).1.state.scissor.enable = src.state.scissor.enable ∧
    (ctx.copy g src).1.state.colorClearValue.val =
      src.state.colorClearValue.val ∧
    (ctx.copy g src).1.useCanvas = src.useCanvas ∧
    (ctx.copy g src).1.camera = src.camera := by
  unfold DrawingContext.copy
  refine ⟨?_, ?_, ?_, ?_, ?_, ?_, ?_⟩ <;>
    simp [resize_preserves]

/-- C2: for every width and height passed to `resize` — including zero,
negative and fractional values — the resulting dimensions are the
inputs rounded by `Math.round` (floor of the value plus one half) and
then clamped to a minimum of 1, hence integers at least 1, and both the
scissor box and the viewport are reset to `[0, 0, width, height]` for
the resulting dimensions. -/
theorem resize_clamps_and_resets (ctx : DrawingContext) (g : GpuState)
    (w h : ℚ) :
    1 ≤ (ctx.resize g w h).1.width ∧ 1 ≤ (ctx.resize g w h).1.height ∧
    (ctx.resize g w h).1.width =
      (if ⌊w + 1/2⌋ ≤ 0 then 1 else ⌊w + 1/2⌋) ∧
    (ctx.resize g w h).1.height =
      (if ⌊h + 1/2⌋ ≤ 0 then 1 else ⌊h + 1/2⌋) ∧
    (ctx.resize g w h).1.state.scissor.box =
      (0, 0, ((ctx.resize g w h).1.width : ℚ),
       ((ctx.resize g w h).1.height : ℚ)) ∧
    (ctx.resize g w h).1.state.viewport =
      (0, 0, ((ctx.resize g w h).1.width : ℚ),
       ((ctx.resize g w h).1.height : ℚ)) := by
  have hw : (ctx.resize g w h).1.width =
      (if jsRound w ≤ 0 then 1 else jsRound w) := rfl
  have hh : (ctx.resize g w h).1.height =
      (if jsRound h ≤ 0 then 1 else jsRound h) := rfl
  have hbox : (ctx.resize g w h).1.state.scissor.box =
      (0, 0, ((ctx.resize g w h).1.width : ℚ),
       ((ctx.resize g w h).1.height : ℚ)) := rfl
  have hvp : (ctx.resize g w h).1.state.viewport =
      (0, 0, ((ctx.resize g w h).1.width : ℚ),
       ((ctx.resize g w h).1.height : ℚ)) := rfl
  refine ⟨?_, ?_, ?_, ?_, hbox, hvp⟩
  · rw [hw]
    split <;> omega
  · rw [hh]
    split <;> omega
  · rw [hw, jsRound_eq_floor]
  · rw [hh, jsRound_eq_floor]

/-- C4: `setBlendMode` with an index that differs from the current one
and has no table entry raises (modelled by `Except.error`) instead of
returning normally, and the thrown-at context carried by the failure is
the receiver with `blendMode` and `state.blend` untouched. -/
theorem setBlendMode_invalid_raises (ctx : DrawingContext) (r : Renderer)
    (b : ℤ) (c : Option (ℚ × ℚ × ℚ × ℚ)) (hb : b ≠ ctx.blendMode)
    (hl : blendLookup r b = none) :
    ctx.setBlendMode r b c = .error ctx := by
  unfold DrawingContext.setBlendMode
  rw [if_neg hb, hl]

theorem setBlendMode_invalid_raises_witness :
    ctxA.setBlendMode sampleRenderer 5 none = .error ctxA :=
  setBlendMode_invalid_raises ctxA sampleRenderer 5 none (by decide)
    (by decide)

/-- C5: calling `setBlendMode` with the current index leaves the whole
context unchanged — so `state.blend` keeps its identity and contents —
for every renderer (no table lookup) and every optional blend color;
with a different index whose table entry exists, the entry's enable,
equation and func are copied into `state.blend`, the blend color is set
to the argument when provided and cleared to `undefined` otherwise, the
index is stored, and nothing else changes. -/
theorem setBlendMode_fast_path_and_update :
    (∀ (ctx : DrawingContext) (r : Renderer) (b : ℤ)
        (c : Option (ℚ × ℚ × ℚ × ℚ)), b = ctx.blendMode →
      ctx.setBlendMode r b c = .ok ctx) ∧
    (∀ (ctx : DrawingContext) (r : Renderer) (b : ℤ)
        (c : Option (ℚ × ℚ × ℚ × ℚ)) (d : BlendModeData),
      b ≠ ctx.blendMode → blendLookup r b = some d →
      ctx.setBlendMode r b c = .ok { ctx with
        state := { ctx.state with
          blend := { enable := some d.enable, equation := some d.equation,
                     func := some d.func, color := c } },
        blendMode := b }) := by
  constructor
  · intro ctx r b c hb
    unfold DrawingContext.setBlendMode
    rw [if_pos hb]
  · intro ctx r b c d hb hl
    unfold DrawingContext.setBlendMode
    rw [if_neg hb, hl]

theorem setBlendMode_fast_path_and_update_witness :
    ctxA.setBlendMode sampleRenderer 0 none = .ok ctxA ∧
    ctxA.setBlendMode sampleRenderer 1 none = .ok ctxA1 :=
  ⟨setBlendMode_fast_path_and_update.1 ctxA sampleRenderer 0 none (by decide),
   setBlendMode_fast_path_and_update.2 ctxA sampleRenderer 1 none bmAdd
     (by decide) (by decide)⟩

/-- C7: `setClearColor` with the four currently stored components is a
no-op returning the context unchanged (in particular the stored array
keeps its identity); with any differing component, the stored value
afterwards is a freshly allocated array — its allocation id is the
context's counter, distinct from the old array's id whenever the
counter is fresh — holding exactly the four inputs. -/
theorem setClearColor_guard_and_alloc :
    (∀ (ctx : DrawingContext) (r g b a : ℚ),
      ctx.state.colorClearValue.val = (r, g, b, a) →
      ctx.setClearColor r g b a = ctx) ∧
    (∀ (ctx : DrawingContext) (r g b a : ℚ),
      ctx.state.colorClearValue.val ≠ (r, g, b, a) →
      (ctx.setClearColor r g b a).state.colorClearValue.val = (r, g, b, a) ∧
      (ctx.setClearColor r g b a).state.colorClearValue.id = ctx.nextArrId ∧
      (ctx.setClearColor r g b a).nextArrId = ctx.nextArrId + 1 ∧
      (ctx.state.colorClearValue.id ≠ ctx.nextArrId →
        (ctx.setClearColor r g b a).state.colorClearValue.id ≠
          ctx.state.colorClearValue.id)) := by
  constructor
  · intro ctx r g b a hval
    unfold DrawingContext.setClearColor
    rw [if_pos]
    rw [hval]
    exact ⟨rfl, rfl, rfl, rfl⟩
  · intro ctx r g b a hval
    unfold DrawingContext.setClearColor
    rw [if_neg]
    · exact ⟨rfl, rfl, rfl, fun hne => fun hc => hne hc.symm⟩
    · intro hcond
      obtain ⟨h1, h2, h3, h4⟩ := hcond
      exact hval (by rw [h1, h2, h3, h4])

theorem setClearColor_guard_and_alloc_witness :
    ctxA.setClearColor 0 0 0 0 = ctxA ∧
    ((ctxA.setClearColor 1 0 0 1).state.colorClearValue.val = (1, 0, 0, 1) ∧
     (ctxA.setClearColor 1 0 0 1).state.colorClearValue.id = ctxA.nextArrId ∧
     (ctxA.setClearColor 1 0 0 1).nextArrId = ctxA.nextArrId + 1 ∧
     (ctxA.state.colorClearValue.id ≠ ctxA.nextArrId →
       (ctxA.setClearColor 1 0 0 1).state.colorClearValue.id ≠
         ctxA.state.colorClearValue.id)) :=
  ⟨setClearColor_guard_and_alloc.1 ctxA 0 0 0 0 rfl,
   setClearColor_guard_and_alloc.2 ctxA 1 0 0 1 (by decide)⟩

/-- C9: `getDefault` is a total function of its inputs (no side
effects, no failure path), and the blend sub-object it returns is a
deep copy of the table's NORMAL entry: equal field values under a fresh
identity, so an identity-addressed write to either object cannot be
observed through the other. -/
theorem getDefault_blend_deep_copy (r : Renderer) (normalIdx freshId : Nat)
    (e : BlendModeData) (store : Nat → BlendModeData) (v : BlendModeData)
    (he : r.blendModes.get? normalIdx = some e) (hfresh : freshId ≠ e.id) :
    (WebGLGlobalParametersFactory.getDefault r normalIdx freshId).blend =
      some { id := freshId, enable := e.enable, equation := e.equation,
             func := e.func } ∧
    Function.update store freshId v e.id = store e.id ∧
    Function.update store e.id v freshId = store freshId := by
  refine ⟨?_, ?_, ?_⟩
  · unfold WebGLGlobalParametersFactory.getDefault
    rw [he]
    rfl
  · exact Function.update_noteq (Ne.symm hfresh) v store
  · exact Function.update_noteq hfresh v store

theorem getDefault_blend_deep_copy_witness :
    (WebGLGlobalParametersFactory.getDefault sampleRenderer 0 7).blend =
      some { id := 7, enable := bmNormal.enable,
             equation := bmNormal.equation, func := bmNormal.func } ∧
    Function.update (fun _ => bmNormal) 7 bmAdd bmNormal.id =
      (fun _ => bmNormal) bmNormal.id ∧
    Function.update (fun _ => bmNormal) bmNormal.id bmAdd 7 =
      (fun _ => bmNormal) 7 :=
  getDefault_blend_deep_copy sampleRenderer 0 7 bmNormal (fun _ => bmNormal)
    bmAdd (by decide) (by decide)

/-- The slow path of `setBlendMode` spelled out. -/
theorem setBlendMode_slow_ok (ctx : DrawingContext) (r : Renderer) (b : ℤ)
    (c : Option (ℚ × ℚ × ℚ × ℚ)) (d : BlendModeData)
    (hb : b ≠ ctx.blendMode) (hl : blendLookup r b = some d) :
    ctx.setBlendMode r b c = .ok { ctx with
      state := { ctx.state with
        blend := { enable := some d.enable, equation := some d.equation,
                   func := some d.func, color := c } },
      blendMode := b } := by
  unfold DrawingContext.setBlendMode
  rw [if_neg hb, hl]

/-- Unfolding of the consistency predicate. -/
theorem blendConsistent_def (r : Renderer) (ctx : DrawingContext) :
    BlendConsistent r ctx ↔
      ∃ d, blendLookup r ctx.blendMode = some d ∧
        ctx.state.blend.enable = some d.enable ∧
        ctx.state.blend.equation = some d.equation ∧
        ctx.state.blend.func = some d.func := by
  unfold BlendConsistent
  cases h : blendLookup r ctx.blendMode with
  | none => simp
  | some d => simp

/-- Consistency only reads the blend-mode index and the blend state. -/
theorem blendConsistent_of_eq (r : Renderer) (c1 c2 : DrawingContext)
    (hm : c2.blendMode = c1.blendMode) (hb : c2.state.blend = c1.state.blend)
    (h : BlendConsistent r c1) : BlendConsistent r c2 := by
  rw [blendConsistent_def] at h ⊢
  rw [hm, hb]
  exact h

/-- The constructor tail after `setBlendMode` — auto-clear step,
`useCanvas` assignment and final resize — never touches the blend data,
the blend-mode index or the scissor enable flag. -/
theorem ctor_tail_preserves (ctx1 : DrawingContext)
    (o : Option AutoClearOption) (u : Bool) (g : GpuState) (w h : ℚ) :
    (({ autoClearStep ctx1 o with useCanvas := u }).resize g w h).1.blendMode
      = ctx1.blendMode ∧
    (({ autoClearStep ctx1 o with useCanvas := u }).resize g w h).1.state.blend
      = ctx1.state.blend ∧
    (({ autoClearStep ctx1 o with
        useCanvas := u }).resize g w h).1.state.scissor.enable
      = ctx1.state.scissor.enable := by
  obtain ⟨hs, hbm, _, _, _, _, _⟩ := autoClearStep_preserves ctx1 o
  obtain ⟨h1, h2, _, _, h5, _, _, _⟩ :=
    resize_preserves { autoClearStep ctx1 o with useCanvas := u } g w h
  refine ⟨?_, ?_, ?_⟩
  · rw [h1]
    exact hbm
  · rw [h2]
    exact congrArg (fun s => s.blend) hs
  · rw [h5]
    exact congrArg (fun s => s.scissor.enable) hs

/-- A construction always succeeds when the requested blend mode is not
the `-1` sentinel and has a table entry. -/
theorem mkDrawingContext_succeeds (r : Renderer) (g : GpuState)
    (opts : ContextOptions) (e : BlendModeData)
    (he : blendLookup r (opts.blendMode.getD 0) = some e)
    (hneg : opts.blendMode.getD 0 ≠ -1) :
    ∃ p, mkDrawingContext r g opts = some p := by
  unfold mkDrawingContext
  rw [setBlendMode_slow_ok (mkCtx0 opts) r (opts.blendMode.getD 0) none e
    hneg he]
  cases opts.copyFrom with
  | none => exact ⟨_, rfl⟩
  | some src => exact ⟨_, rfl⟩

/-- A construction from `copyFrom` ends with the source's auto-clear
mask. -/
theorem mkDrawingContext_copy_autoClear (r : Renderer) (g : GpuState)
    (opts : ContextOptions) (src : DrawingContext)
    (p : DrawingContext × GpuState) (hcf : opts.copyFrom = some src)
    (hmk : mkDrawingContext r g opts = some p) :
    p.1.autoClear = src.autoClear := by
  obtain ⟨ctx1, hsb, hrest⟩ := mkDrawingContext_some r g opts p hmk
  rcases hrest with ⟨hnone, _⟩ | ⟨src2, hcf2, hp⟩
  · rw [hcf] at hnone
    cases hnone
  · rw [hcf] at hcf2
    injection hcf2 with he2
    subst he2
    subst hp
    exact (copy_fields _ src g).1

/-- Resizing a canvas context that already has its framebuffer keeps
the framebuffer reference and the allocator untouched. -/
theorem resize_canvas_stable (ctx : DrawingContext) (g : GpuState)
    (w h : ℚ) (f : Nat) (hu : ctx.useCanvas = true)
    (hf : ctx.framebuffer = some f) :
    (ctx.resize g w h).1.framebuffer = some f ∧
    (ctx.resize g w h).2 = g := by
  have hcore := resizeCore_canvas_existing ctx g hu (by simp [hf])
  obtain ⟨hrf, _, hrg⟩ := resize_resources ctx g w h
  constructor
  · rw [hrf, hcore]
    exact hf
  · rw [hrg, hcore]

/-- Iterating `resize` over any list of dimensions keeps a canvas
context's framebuffer reference and the allocator untouched. -/
theorem resizeFold_canvas_stable (l : List (ℚ × ℚ)) :
    ∀ (ctx : DrawingContext) (g : GpuState) (f : Nat),
      ctx.useCanvas = true → ctx.framebuffer = some f →
      (resizeFold ctx g l).1.framebuffer = some f ∧
      (resizeFold ctx g l).2 = g := by
  induction l with
  | nil =>
      intro ctx g f hu hf
      exact ⟨hf, rfl⟩
  | cons hd tl ih =>
      intro ctx g f hu hf
      obtain ⟨w, h⟩ := hd
      obtain ⟨h1, h2⟩ := resize_canvas_stable ctx g w h f hu hf
      have hu' : (ctx.resize g w h).1.useCanvas = true := by
        rw [(resize_preserves ctx g w h).2.2.2.1]
        exact hu
      obtain ⟨hf1, hf2⟩ :=
        ih (ctx.resize g w h).1 (ctx.resize g w h).2 f hu' h1
      constructor
      · exact hf1
      · show (resizeFold (ctx.resize g w h).1 (ctx.resize g w h).2 tl).2 = g
        rw [hf2, h2]

/-- C1 evidence: constructing `A` (non-canvas) with default options out
of a fresh allocator gives `A.texture` the resource id 0 and
`A.framebuffer` the id 1; constructing `B` with `copyFrom (equal to) A`
then leaves the allocator with only the freshly created ids 3 and 2
live — the resize that finishes `copy` deleted A's texture and
framebuffer, contradicting the claim that A's resources remain
undeleted after `copy` returns. -/
theorem copy_deletes_source_resources :
    ((mkDrawingContext sampleRenderer g0 optsDefault).bind fun p =>
      (mkDrawingContext sampleRenderer p.2
          { optsDefault with copyFrom := some p.1 }).map fun q =>
        (p.1.texture, p.1.framebuffer, q.2.live))
      = some (some 0, some 1, [3, 2]) := by decide

/-- C3 counterexample: constructing with blend-mode option `-1` — the
value of the constructor's internal sentinel — succeeds and produces a
context whose `blendMode` is `-1` while `state.blend` is still the
empty object, so the index and the blend state are not mutually
consistent. -/
theorem blend_consistency_fails_at_sentinel :
    (mkDrawingContext sampleRenderer g0 optsNeg1).map
      (fun p => (p.1.blendMode,
        decide (BlendConsistent sampleRenderer p.1)))
      = some (-1, false) := by decide

/-- C3 (amended): `blendMode` and `state.blend` are kept mutually
consistent by construction (provided the blend-mode option is not the
internal `-1` sentinel, which silently skips the table lookup), by
construction from a consistent copy source, by `setBlendMode` whatever
its outcome, and by `copy`, which carries the source's blend values
together with its blend-mode index. -/
theorem blend_consistency_invariant :
    (∀ (r : Renderer) (g : GpuState) (opts : ContextOptions)
        (p : DrawingContext × GpuState),
      opts.copyFrom = none → opts.blendMode.getD 0 ≠ -1 →
      mkDrawingContext r g opts = some p → BlendConsistent r p.1) ∧
    (∀ (r : Renderer) (g : GpuState) (opts : ContextOptions)
        (src : DrawingContext) (p : DrawingContext × GpuState),
      opts.copyFrom = some src → BlendConsistent r src →
      mkDrawingContext r g opts = some p → BlendConsistent r p.1) ∧
    (∀ (ctx : DrawingContext) (r : Renderer) (b : ℤ)
        (c : Option (ℚ × ℚ × ℚ × ℚ)) (ctx' : DrawingContext),
      BlendConsistent r ctx →
      (ctx.setBlendMode r b c = .ok ctx' ∨
       ctx.setBlendMode r b c = .error ctx') →
      BlendConsistent r ctx') ∧
    (∀ (ctx src : DrawingContext) (g : GpuState),
      (ctx.copy g src).1.blendMode = src.blendMode ∧
      (ctx.copy g src).1.state.blend = src.state.blend) ∧
    (∀ (ctx src : DrawingContext) (g : GpuState) (r : Renderer),
      BlendConsistent r src → BlendConsistent r (ctx.copy g src).1) := by
  have hcopy : ∀ (ctx src : DrawingContext) (g : GpuState),
      (ctx.copy g src).1.blendMode = src.blendMode ∧
      (ctx.copy g src).1.state.blend = src.state.blend := by
    intro ctx src g
    exact ⟨(copy_fields ctx src g).2.1, (copy_fields ctx src g).2.2.1⟩
  have hcopy5 : ∀ (ctx src : DrawingContext) (g : GpuState) (r : Renderer),
      BlendConsistent r src → BlendConsistent r (ctx.copy g src).1 := by
    intro ctx src g r hc
    exact blendConsistent_of_eq r src _ (hcopy ctx src g).1
      (hcopy ctx src g).2 hc
  have hsb3 : ∀ (ctx : DrawingContext) (r : Renderer) (b : ℤ)
      (c : Option (ℚ × ℚ × ℚ × ℚ)) (ctx' : DrawingContext),
      BlendConsistent r ctx →
      (ctx.setBlendMode r b c = .ok ctx' ∨
       ctx.setBlendMode r b c = .error ctx') →
      BlendConsistent r ctx' := by
    intro ctx r b c ctx' hcons h
    rcases h with h | h
    · rcases setBlendMode_ok_cases ctx r b c ctx' h with
        ⟨_, h2⟩ | ⟨hb, d, hl, h2⟩
      · subst h2
        exact hcons
      · subst h2
        exact (blendConsistent_def r _).mpr ⟨d, hl, rfl, rfl, rfl⟩
    · have h2 := setBlendMode_error_eq ctx r b c ctx' h
      subst h2
      exact hcons
  refine ⟨?_, ?_, hsb3, hcopy, hcopy5⟩
  · intro r g opts p hcf hneg hmk
    obtain ⟨ctx1, hsb, hrest⟩ := mkDrawingContext_some r g opts p hmk
    rcases hrest with ⟨_, hp⟩ | ⟨src, hcf2, _⟩
    · subst hp
      have hc1 : BlendConsistent r ctx1 := by
        rcases setBlendMode_ok_cases _ r _ none ctx1 hsb with
          ⟨hb0, _⟩ | ⟨_, d, hl, h2⟩
        · exact absurd hb0 hneg
        · subst h2
          exact (blendConsistent_def r _).mpr ⟨d, hl, rfl, rfl, rfl⟩
      obtain ⟨hbm, hbl, _⟩ :=
        ctor_tail_preserves ctx1 opts.autoClear opts.useCanvas g
          r.width r.height
      exact blendConsistent_of_eq r ctx1 _ hbm hbl hc1
    · rw [hcf] at hcf2
      cases hcf2
  · intro r g opts src p hcf hcons hmk
    obtain ⟨ctx1, hsb, hrest⟩ := mkDrawingContext_some r g opts p hmk
    rcases hrest with ⟨hnone, _⟩ | ⟨src2, hcf2, hp⟩
    · rw [hcf] at hnone
      cases hnone
    · rw [hcf] at hcf2
      injection hcf2 with he2
      subst he2
      subst hp
      exact hcopy5 _ src g r hcons

theorem blend_consistency_invariant_witness :
    BlendConsistent sampleRenderer ctxA ∧
    BlendConsistent sampleRenderer pB.1 ∧
    BlendConsistent sampleRenderer ctxA1 ∧
    ((ctxA.copy gA ctxA).1.blendMode = ctxA.blendMode ∧
     (ctxA.copy gA ctxA).1.state.blend = ctxA.state.blend) ∧
    BlendConsistent sampleRenderer (ctxA.copy gA ctxA).1 :=
  ⟨blend_consistency_invariant.1 sampleRenderer g0 optsDefault (ctxA, gA)
     rfl (by decide) (by decide),
   blend_consistency_invariant.2.1 sampleRenderer gA optsCopyA ctxA pB
     rfl (by decide) (by decide),
   blend_consistency_invariant.2.2.1 ctxA sampleRenderer 1 none ctxA1
     (by decide)
     (Or.inl (setBlendMode_slow_ok ctxA sampleRenderer 1 none bmAdd
       (by decide) (by decide))),
   blend_consistency_invariant.2.2.2.1 ctxA ctxA gA,
   blend_consistency_invariant.2.2.2.2 ctxA ctxA gA sampleRenderer
     (by decide)⟩

/-- C6: `getClone` without `preserveAutoClear` yields a clone whose
auto-clear mask is zero; with `preserveAutoClear` it yields a clone
whose auto-clear mask equals the source's (assuming blend-mode table
entry 0 exists, without which the inner construction throws). -/
theorem getClone_autoClear (ctx : DrawingContext) (r : Renderer)
    (g : GpuState) (e : BlendModeData)
    (he : r.blendModes.get? 0 = some e) :
    (ctx.getClone r g false).map (fun p => p.1.autoClear) = some 0 ∧
    (ctx.getClone r g true).map (fun p => p.1.autoClear) =
      some ctx.autoClear := by
  obtain ⟨p, hp⟩ := mkDrawingContext_succeeds r g
      { autoClear := none, blendMode := none, camera := none,
        clearColor := none, useCanvas := false, copyFrom := some ctx } e
      (by simpa [blendLookup] using he)
      (by show (0 : ℤ) ≠ -1; decide)
  have hac : p.1.autoClear = ctx.autoClear :=
    mkDrawingContext_copy_autoClear r g _ ctx p rfl hp
  unfold DrawingContext.getClone
  rw [hp]
  constructor
  · rfl
  · show some p.1.autoClear = some ctx.autoClear
    rw [hac]

theorem getClone_autoClear_witness :
    (ctxA.getClone sampleRenderer gA false).map (fun p => p.1.autoClear) =
      some 0 ∧
    (ctxA.getClone sampleRenderer gA true).map (fun p => p.1.autoClear) =
      some ctxA.autoClear :=
  getClone_autoClear ctxA sampleRenderer gA bmNormal (by decide)

/-- C8: for a canvas-backed context the framebuffer is created exactly
once: construction (whose final resize is the first one) creates it
with the allocator's next fresh id, and any further resize — and any
iterated sequence of resizes with arbitrary dimensions — keeps the very
same framebuffer reference and performs no creation or deletion at
all. -/
theorem canvas_framebuffer_created_once :
    (∀ (r : Renderer) (g : GpuState) (opts : ContextOptions)
        (p : DrawingContext × GpuState),
      opts.useCanvas = true → opts.copyFrom = none →
      mkDrawingContext r g opts = some p →
      p.1.framebuffer = some g.nextRes ∧ g.nextRes ∈ p.2.live) ∧
    (∀ (ctx : DrawingContext) (g : GpuState) (w h : ℚ) (f : Nat),
      ctx.useCanvas = true → ctx.framebuffer = some f →
      (ctx.resize g w h).1.framebuffer = some f ∧
      (ctx.resize g w h).2 = g) ∧
    (∀ (ctx : DrawingContext) (g : GpuState) (l : List (ℚ × ℚ)) (f : Nat),
      ctx.useCanvas = true → ctx.framebuffer = some f →
      (resizeFold ctx g l).1.framebuffer = some f ∧
      (resizeFold ctx g l).2 = g) := by
  refine ⟨?_, ?_, ?_⟩
  · intro r g opts p hu hcf hmk
    obtain ⟨ctx1, hsb, hrest⟩ := mkDrawingContext_some r g opts p hmk
    rcases hrest with ⟨_, hp⟩ | ⟨src, hcf2, _⟩
    · subst hp
      have hXu : ({ autoClearStep ctx1 opts.autoClear with
          useCanvas := opts.useCanvas } : DrawingContext).useCanvas
          = true := hu
      have hXf : ({ autoClearStep ctx1 opts.autoClear with
          useCanvas := opts.useCanvas } : DrawingContext).framebuffer
          = none := by
        have h1 := (autoClearStep_preserves ctx1 opts.autoClear).2.2.2.1
        have h2 := (setBlendMode_outcome_preserves (mkCtx0 opts) r
          (opts.blendMode.getD 0) none ctx1 (Or.inl hsb)).1
        show (autoClearStep ctx1 opts.autoClear).framebuffer = none
        rw [h1, h2]
        rfl
      have hcore := resizeCore_canvas_fresh _ g hXu hXf
      obtain ⟨hrf, _, hrg⟩ := resize_resources
        ({ autoClearStep ctx1 opts.autoClear with
           useCanvas := opts.useCanvas }) g r.width r.height
      constructor
      · rw [hrf, hcore]
      · rw [hrg, hcore]
        exact List.mem_cons_self _ _
    · rw [hcf] at hcf2
      cases hcf2
  · intro ctx g w h f hu hf
    exact resize_canvas_stable ctx g w h f hu hf
  · intro ctx g l f hu hf
    exact resizeFold_canvas_stable l ctx g f hu hf

theorem canvas_framebuffer_created_once_witness :
    (canvasPair.1.framebuffer = some g0.nextRes ∧
     g0.nextRes ∈ canvasPair.2.live) ∧
    ((canvasPair.1.resize gA 100 100).1.framebuffer = some g0.nextRes ∧
     (canvasPair.1.resize gA 100 100).2 = gA) ∧
    ((resizeFold canvasPair.1 gA
        [((100 : ℚ), (100 : ℚ)), ((50 : ℚ), (75 : ℚ))]).1.framebuffer =
       some g0.nextRes ∧
     (resizeFold canvasPair.1 gA
        [((100 : ℚ), (100 : ℚ)), ((50 : ℚ), (75 : ℚ))]).2 = gA) :=
  ⟨canvas_framebuffer_created_once.1 sampleRenderer g0 optsCanvas
     canvasPair rfl rfl (by decide),
   canvas_framebuffer_created_once.2.1 canvasPair.1 gA 100 100 g0.nextRes
     (by decide) (by decide),
   canvas_framebuffer_created_once.2.2 canvasPair.1 gA
     [((100 : ℚ), (100 : ℚ)), ((50 : ℚ), (75 : ℚ))] g0.nextRes
     (by decide) (by decide)⟩

/-- C10: every context constructed without a `copyFrom` option starts
with the scissor test enabled, while the factory's full default
descriptor has it disabled. -/
theorem scissor_enable_initial_values (r : Renderer) (g : GpuState)
    (opts : ContextOptions) (p : DrawingContext × GpuState) (n f : Nat)
    (hcf : opts.copyFrom = none)
    (hmk : mkDrawingContext r g opts = some p) :
    p.1.state.scissor.enable = true ∧
    (WebGLGlobalParametersFactory.getDefault r n f).scissor.enable =
      false := by
  refine ⟨?_, rfl⟩
  obtain ⟨ctx1, hsb, hrest⟩ := mkDrawingContext_some r g opts p hmk
  rcases hrest with ⟨_, hp⟩ | ⟨src, hcf2, _⟩
  · subst hp
    obtain ⟨_, _, hsc⟩ :=
      ctor_tail_preserves ctx1 opts.autoClear opts.useCanvas g
        r.width r.height
    rw [hsc]
    have hscis := (setBlendMode_outcome_preserves (mkCtx0 opts) r
      (opts.blendMode.getD 0) none ctx1 (Or.inl hsb)).2.2.2.2.2.2.1
    rw [congrArg (fun s => s.enable) hscis]
    rfl
  · rw [hcf] at hcf2
    cases hcf2

theorem scissor_enable_initial_values_witness :
    (ctxA, gA).1.state.scissor.enable = true ∧
    (WebGLGlobalParametersFactory.getDefault sampleRenderer 0
      7).scissor.enable = false :=
  scissor_enable_initial_values sampleRenderer g0 optsDefault (ctxA, gA)
    0 7 rfl (by decide)
